import Mathlib

/-!
Verification development for the error-handling and model-download core of the
`ort` library (`src/error.rs`, `src/download/vision/object_detection_image_segmentation.rs`).

The native FFI layer is modelled as an environment: a raw pointer is an
address (`Nat`, with `0` the null pointer), and the calls the translator makes
into the native layer (`GetErrorMessage`, `ReleaseStatus`) are recorded as an
explicit trace of operations, so that resource-release properties can be
stated as properties of the trace.
-/

/-- A raw pointer modelled as an address; `0` is the null pointer. -/
abbrev Ptr := Nat

/-- `ptr.is_null()` from Rust. -/
def Ptr.isNull (p : Ptr) : Bool := p == 0

/-- Payload of `std::ffi::IntoStringError` (the bytes of the `CString` that
failed UTF-8 conversion), modelled abstractly. -/
structure IntoStringError where
  bytes : List Nat
deriving DecidableEq, Repr

/-- Payload of `std::string::FromUtf8Error`, modelled abstractly. -/
structure FromUtf8Error where
  bytes : List Nat
deriving DecidableEq, Repr

/-- Payload of `std::ffi::NulError`, modelled abstractly. -/
structure NulError where
  pos : Nat
  bytes : List Nat
deriving DecidableEq, Repr

/-- Payload of `std::io::Error`, modelled abstractly. -/
structure IoError where
  msg : String
deriving DecidableEq, Repr

/-- Payload of `ureq::Error` (boxed in the source), modelled abstractly. -/
structure UreqError where
  msg : String
deriving DecidableEq, Repr

/-- `std::path::PathBuf`, modelled as its textual form. -/
abbrev PathBuf := String

/-- `crate::tensor::TensorElementDataType` (external to the provided error
module), modelled as an abstract tag. -/
structure TensorElementDataType where
  tag : Nat
deriving DecidableEq, Repr

/-- `ErrorInternal` from `src/error.rs`: error details when the ONNX C API
returns an error — either a decoded message, or the failure encountered while
decoding the native message. -/
inductive ErrorInternal where
  | Msg (msg : String)
  | IntoStringError (e : IntoStringError)
deriving DecidableEq, Repr

/-- `NonMatchingDimensionsError` from `src/error.rs`. -/
inductive NonMatchingDimensionsError where
  | InputsCount
      (inference_input_count : Nat)
      (model_input_count : Nat)
      (inference_input : List (List Nat))
      (model_input : List (List (Option Nat)))
  | InputsLength
      (inference_input : List (List Nat))
      (model_input : List (List (Option Nat)))
deriving DecidableEq, Repr

/-- `FetchModelError` from `src/error.rs`. The `CopyError` fields are the
`u64` fields `expected` and `io` of the source. -/
inductive FetchModelError where
  | IoError (e : IoError)
  | FetchError (e : UreqError)
  | ContentLengthError
  | CopyError (expected : Nat) (io_bytes : Nat)
deriving DecidableEq, Repr

/-- The `Error` enum from `src/error.rs` (the taxonomy root). The
windows-and-profiling-gated `WideFfiStringNull` variant is omitted, matching a
build without that configuration. -/
inductive Error where
  | Infallible
  | FfiStringConversion (e : ErrorInternal)
  | CreateEnvironment (e : ErrorInternal)
  | CreateSessionOptions (e : ErrorInternal)
  | CreateSession (e : ErrorInternal)
  | CreateIoBinding (e : ErrorInternal)
  | GetInOutCount (e : ErrorInternal)
  | GetInputName (e : ErrorInternal)
  | GetTypeInfo (e : ErrorInternal)
  | GetOnnxTypeFromTypeInfo (e : ErrorInternal)
  | CastTypeInfoToTensorInfo (e : ErrorInternal)
  | CastTypeInfoToSequenceTypeInfo (e : ErrorInternal)
  | CastTypeInfoToMapTypeInfo (e : ErrorInternal)
  | GetMapKeyType (e : ErrorInternal)
  | GetMapValueType (e : ErrorInternal)
  | GetSequenceElementType (e : ErrorInternal)
  | GetTensorElementType (e : ErrorInternal)
  | GetDimensionsCount (e : ErrorInternal)
  | GetDimensions (e : ErrorInternal)
  | GetStringTensorDataLength (e : ErrorInternal)
  | GetTensorShapeElementCount (e : ErrorInternal)
  | CreateTensor (e : ErrorInternal)
  | CreateTensorWithData (e : ErrorInternal)
  | FillStringTensor (e : ErrorInternal)
  | FailedTensorCheck (e : ErrorInternal)
  | GetTensorTypeAndShape (e : ErrorInternal)
  | SessionRun (e : ErrorInternal)
  | SessionRunWithIoBinding (e : ErrorInternal)
  | GetTensorMutableData (e : ErrorInternal)
  | GetStringTensorContent (e : ErrorInternal)
  | StringFromUtf8Error (e : FromUtf8Error)
  | DownloadError (e : FetchModelError)
  | NonMatchingDataTypes (input : TensorElementDataType) (model : TensorElementDataType)
  | NonMatchingDimensions (e : NonMatchingDimensionsError)
  | FileDoesNotExist (filename : PathBuf)
  | NonUtf8Path (path : PathBuf)
  | FfiStringNull (e : NulError)
  | PointerShouldBeNull (name : String)
  | PointerShouldNotBeNull (name : String)
  | UndefinedTensorElementType
  | GetModelMetadata (e : ErrorInternal)
  | DataTypeMismatch (actual : TensorElementDataType) (requested : TensorElementDataType)
  | DlLoad (symbol : String) (error : String)
  | ExecutionProvider (e : ErrorInternal)
  | ExecutionProviderNotRegistered (name : String)
  | TensorNotOnCpu (device : String)
  | StringTensorRequiresAllocator
  | CreateMemoryInfo (e : ErrorInternal)
  | GetAllocationDevice (e : ErrorInternal)
  | GetAvailableProviders (e : ErrorInternal)
  | UnknownAllocationDevice (device : String)
  | BindInput (e : ErrorInternal)
  | BindOutput (e : ErrorInternal)
  | ClearBinding (e : ErrorInternal)
  | GetBoundOutputs (e : ErrorInternal)

/-- A call into the native layer made by the status translator; traces of
these record the FFI side effects of a run. -/
inductive NativeOp where
  | GetErrorMessage (status : Ptr)
  | ReleaseStatus (status : Ptr)
deriving DecidableEq, Repr

/-- The native layer and the `char_p_to_string` helper (defined outside the
provided error module), seen from one invocation of the translator:
`getErrorMessage` is the native `GetErrorMessage` call, and
`char_p_to_string` decodes a raw C-string pointer into an owned `String` or
fails with an `Error`. -/
structure NativeEnv where
  getErrorMessage : Ptr → Ptr
  char_p_to_string : Ptr → Except Error String

/-- `OrtStatusWrapper` from `src/error.rs`: wrapper owning one raw
`*mut OrtStatus`. -/
structure OrtStatusWrapper where
  ptr : Ptr
deriving DecidableEq, Repr

/-- `impl From<*mut ort_sys::OrtStatus> for OrtStatusWrapper`. -/
def OrtStatusWrapper.fromRaw (status : Ptr) : OrtStatusWrapper :=
  OrtStatusWrapper.mk status

/-- `impl Drop for OrtStatusWrapper`: the native calls performed when the
wrapper is dropped — exactly one `ReleaseStatus` on the held pointer. -/
def OrtStatusWrapper.dropOps (w : OrtStatusWrapper) : List NativeOp :=
  [NativeOp.ReleaseStatus w.ptr]

/-- `impl From<OrtStatusWrapper> for Result<(), ErrorInternal>` from
`src/error.rs`. The wrapper is consumed by the conversion, so its `Drop`
runs when the conversion's scope ends on every path — the panicking
`unreachable!()` path included, since unwinding drops locals. The first
component is the outcome (`none` models the `unreachable!()` panic), the
second the trace of native calls, the release from `Drop` included. -/
def ortStatusWrapperIntoResult (env : NativeEnv) (w : OrtStatusWrapper) :
    Option (Except ErrorInternal Unit) × List NativeOp :=
  if w.ptr.isNull then
    (some (Except.ok ()), [] ++ w.dropOps)
  else
    let raw : Ptr := env.getErrorMessage w.ptr
    let outcome : Option (Except ErrorInternal Unit) :=
      match env.char_p_to_string raw with
      | Except.ok msg => some (Except.error (ErrorInternal.Msg msg))
      | Except.error (Error.FfiStringConversion (ErrorInternal.IntoStringError e)) =>
          some (Except.error (ErrorInternal.IntoStringError e))
      | Except.error _ => none
    (outcome, [NativeOp.GetErrorMessage w.ptr] ++ w.dropOps)

/-- `status_to_result` from `src/error.rs`: wraps the raw status and converts
the wrapper. Returns the outcome together with the trace of native calls. -/
def status_to_result (env : NativeEnv) (status : Ptr) :
    Option (Except ErrorInternal Unit) × List NativeOp :=
  ortStatusWrapperIntoResult env (OrtStatusWrapper.fromRaw status)

/-- `assert_null_pointer` from `src/error.rs`. -/
def assert_null_pointer (ptr : Ptr) (name : String) : Except Error Unit :=
  if ptr.isNull then Except.ok () else Except.error (Error.PointerShouldBeNull name)

/-- `assert_non_null_pointer` from `src/error.rs`. -/
def assert_non_null_pointer (ptr : Ptr) (name : String) : Except Error Unit :=
  if !ptr.isNull then Except.ok () else Except.error (Error.PointerShouldNotBeNull name)

/-- The inference-call shape vectors stored in a dimensions-mismatch error. -/
def NonMatchingDimensionsError.inferenceInput :
    NonMatchingDimensionsError → List (List Nat)
  | NonMatchingDimensionsError.InputsCount _ _ inference_input _ => inference_input
  | NonMatchingDimensionsError.InputsLength inference_input _ => inference_input

/-- The model-side shape vectors stored in a dimensions-mismatch error. -/
def NonMatchingDimensionsError.modelInput :
    NonMatchingDimensionsError → List (List (Option Nat))
  | NonMatchingDimensionsError.InputsCount _ _ _ model_input => model_input
  | NonMatchingDimensionsError.InputsLength _ model_input => model_input

/-- The inference-call input count stored by the `InputsCount` variant. -/
def NonMatchingDimensionsError.inferenceInputCount :
    NonMatchingDimensionsError → Option Nat
  | NonMatchingDimensionsError.InputsCount inference_input_count _ _ _ =>
      some inference_input_count
  | NonMatchingDimensionsError.InputsLength _ _ => none

/-- The model input count stored by the `InputsCount` variant. -/
def NonMatchingDimensionsError.modelInputCount :
    NonMatchingDimensionsError → Option Nat
  | NonMatchingDimensionsError.InputsCount _ model_input_count _ _ =>
      some model_input_count
  | NonMatchingDimensionsError.InputsLength _ _ => none

/-- Modelled from the spec: the network response seen by the model fetcher
(the fetch routine itself lives in the download module, which is absent from
the provided sources; only its error type `FetchModelError` is in
`src/error.rs`). `contentLength` is the declared transfer size from the
response metadata (the Content-Length header), absent when the header is
missing; `body` is the stream of chunks read from the network, each read
either yielding a chunk of bytes or failing with an I/O error. -/
structure FetchResponse where
  contentLength : Option Nat
  body : List (Except IoError (List Nat))

/-- Modelled from the spec: streaming the response body to the destination,
counting bytes written. Returns the I/O failure, if any read failed, together
with the bytes written to the destination so far (an I/O failure
short-circuits, leaving the partial file in place). -/
def copy_stream : List (Except IoError (List Nat)) → List Nat → Option IoError × List Nat
  | [], written => (none, written)
  | Except.ok chunk :: rest, written => copy_stream rest (written ++ chunk)
  | Except.error e :: _, written => (some e, written)

/-- Modelled from the spec: the model fetch (download-and-verify) routine,
absent from the provided sources. Reads the declared transfer size from the
response metadata, failing with `ContentLengthError` before writing anything
when it is absent; streams the body to the destination; reports any I/O
failure as `IoError`; on completion compares bytes written against the
declared size, succeeding when equal and failing with
`CopyError {expected, io}` otherwise, the partial file left in place. The
second component is the destination file's final contents. -/
def fetch_model (resp : FetchResponse) : Except FetchModelError Unit × List Nat :=
  match resp.contentLength with
  | none => (Except.error FetchModelError.ContentLengthError, [])
  | some expected =>
    match copy_stream resp.body [] with
    | (some e, written) => (Except.error (FetchModelError.IoError e), written)
    | (none, written) =>
      if written.length == expected then (Except.ok (), written)
      else (Except.error (FetchModelError.CopyError expected written.length), written)

/-- `ObjectDetectionImageSegmentation` from
`src/download/vision/object_detection_image_segmentation.rs`. -/
inductive ObjectDetectionImageSegmentation where
  | TinyYoloV2
  | Ssd
  | SSDMobileNetV1
  | FasterRcnn
  | MaskRcnn
  | RetinaNet
  | YoloV2
  | YoloV2Coco
  | YoloV3
  | TinyYoloV3
  | YoloV4
  | Duc
deriving DecidableEq, Fintype, Repr

/-- Every variant of `ObjectDetectionImageSegmentation`, used to state that
the enum has exactly twelve variants. -/
def ObjectDetectionImageSegmentation.allVariants : List ObjectDetectionImageSegmentation :=
  [ObjectDetectionImageSegmentation.TinyYoloV2, ObjectDetectionImageSegmentation.Ssd,
   ObjectDetectionImageSegmentation.SSDMobileNetV1, ObjectDetectionImageSegmentation.FasterRcnn,
   ObjectDetectionImageSegmentation.MaskRcnn, ObjectDetectionImageSegmentation.RetinaNet,
   ObjectDetectionImageSegmentation.YoloV2, ObjectDetectionImageSegmentation.YoloV2Coco,
   ObjectDetectionImageSegmentation.YoloV3, ObjectDetectionImageSegmentation.TinyYoloV3,
   ObjectDetectionImageSegmentation.YoloV4, ObjectDetectionImageSegmentation.Duc]

/-- `impl ModelUrl for ObjectDetectionImageSegmentation`, `fn model_url`. -/
def model_url : ObjectDetectionImageSegmentation → String
  | ObjectDetectionImageSegmentation.TinyYoloV2 =>
      "https://github.com/onnx/models/raw/5faef4c33eba0395177850e1e31c4a6a9e634c82/vision/object_detection_segmentation/tiny-yolov2/model/tinyyolov2-8.onnx"
  | ObjectDetectionImageSegmentation.Ssd =>
      "https://github.com/onnx/models/raw/5faef4c33eba0395177850e1e31c4a6a9e634c82/vision/object_detection_segmentation/ssd/model/ssd-10.onnx"
  | ObjectDetectionImageSegmentation.SSDMobileNetV1 =>
      "https://github.com/onnx/models/raw/5faef4c33eba0395177850e1e31c4a6a9e634c82/vision/object_detection_segmentation/ssd-mobilenetv1/model/ssd_mobilenet_v1_10.onnx"
  | ObjectDetectionImageSegmentation.FasterRcnn =>
      "https://github.com/onnx/models/raw/5faef4c33eba0395177850e1e31c4a6a9e634c82/vision/object_detection_segmentation/faster-rcnn/model/FasterRCNN-10.onnx"
  | ObjectDetectionImageSegmentation.MaskRcnn =>
      "https://github.com/onnx/models/raw/5faef4c33eba0395177850e1e31c4a6a9e634c82/vision/object_detection_segmentation/mask-rcnn/model/MaskRCNN-10.onnx"
  | ObjectDetectionImageSegmentation.RetinaNet =>
      "https://github.com/onnx/models/raw/5faef4c33eba0395177850e1e31c4a6a9e634c82/vision/object_detection_segmentation/retinanet/model/retinanet-9.onnx"
  | ObjectDetectionImageSegmentation.YoloV2 =>
      "https://github.com/onnx/models/raw/5faef4c33eba0395177850e1e31c4a6a9e634c82/vision/object_detection_segmentation/yolov2/model/yolov2-voc-8.onnx"
  | ObjectDetectionImageSegmentation.YoloV2Coco =>
      "https://github.com/onnx/models/raw/5faef4c33eba0395177850e1e31c4a6a9e634c82/vision/object_detection_segmentation/yolov2-coco/model/yolov2-coco-9.onnx"
  | ObjectDetectionImageSegmentation.YoloV3 =>
      "https://github.com/onnx/models/raw/5faef4c33eba0395177850e1e31c4a6a9e634c82/vision/object_detection_segmentation/yolov3/model/yolov3-10.onnx"
  | ObjectDetectionImageSegmentation.TinyYoloV3 =>
      "https://github.com/onnx/models/raw/5faef4c33eba0395177850e1e31c4a6a9e634c82/vision/object_detection_segmentation/tiny-yolov3/model/tiny-yolov3-11.onnx"
  | ObjectDetectionImageSegmentation.YoloV4 =>
      "https://github.com/onnx/models/raw/5faef4c33eba0395177850e1e31c4a6a9e634c82/vision/object_detection_segmentation/yolov4/model/yolov4.onnx"
  | ObjectDetectionImageSegmentation.Duc =>
      "https://github.com/onnx/models/raw/5faef4c33eba0395177850e1e31c4a6a9e634c82/vision/object_detection_segmentation/duc/model/ResNet101-DUC-7.onnx"

/-- The URL prefix pinning every model URL to one commit of the onnx/models
repository. -/
def pinnedCommitPrefix : String :=
  "https://github.com/onnx/models/raw/5faef4c33eba0395177850e1e31c4a6a9e634c82/"

/-- Whether a native call is a `ReleaseStatus` call. -/
def NativeOp.isRelease : NativeOp → Bool
  | NativeOp.ReleaseStatus _ => true
  | NativeOp.GetErrorMessage _ => false

/-- The contract of `char_p_to_string` stated by the spec: decoding a native
message only ever fails with `Error::FfiStringConversion` carrying an
`ErrorInternal::IntoStringError`. -/
def DecodeFailsOnlyWithIntoStringError (env : NativeEnv) : Prop :=
  ∀ p e, env.char_p_to_string p = Except.error e →
    ∃ ise, e = Error.FfiStringConversion (ErrorInternal.IntoStringError ise)

/-- A concrete well-behaved native environment whose message decoding always
succeeds, used to instantiate universally quantified theorems. -/
def envOkMsg (msg : String) : NativeEnv :=
  { getErrorMessage := fun _ => 1, char_p_to_string := fun _ => Except.ok msg }

/-- A concrete native environment whose message decoding always fails with an
`IntoStringError`, used to instantiate universally quantified theorems. -/
def envBadMsg (e : IntoStringError) : NativeEnv :=
  { getErrorMessage := fun _ => 1,
    char_p_to_string := fun _ =>
      Except.error (Error.FfiStringConversion (ErrorInternal.IntoStringError e)) }

theorem envOkMsg_decode_contract (msg : String) :
    DecodeFailsOnlyWithIntoStringError (envOkMsg msg) := by
  intro p e h
  simp [envOkMsg] at h

theorem envBadMsg_decode_contract (e : IntoStringError) :
    DecodeFailsOnlyWithIntoStringError (envBadMsg e) := by
  intro p err h
  simp only [envBadMsg, Except.error.injEq] at h
  exact ⟨e, h.symm⟩

/-- C1: in every environment and for every status handle, null or not, the
trace of native calls made by `status_to_result` contains exactly one
`ReleaseStatus` call, and it is on that handle — release happens exactly once
on every exit path, the message-decoding-failure path included. -/
theorem release_invoked_exactly_once (env : NativeEnv) (status : Ptr) :
    ((status_to_result env status).2.filter NativeOp.isRelease) =
      [NativeOp.ReleaseStatus status] := by
  unfold status_to_result ortStatusWrapperIntoResult OrtStatusWrapper.fromRaw
  by_cases h : status = 0
  · simp [h, Ptr.isNull, OrtStatusWrapper.dropOps, NativeOp.isRelease, List.filter]
  · simp [h, Ptr.isNull, OrtStatusWrapper.dropOps, NativeOp.isRelease, List.filter]

/-- C2: `status_to_result` succeeds exactly on the null handle, and (under the
decode contract) every non-null handle yields an error carrying an
`ErrorInternal`. -/
theorem ok_iff_null (env : NativeEnv) (status : Ptr)
    (henv : DecodeFailsOnlyWithIntoStringError env) :
    ((status_to_result env status).1 = some (Except.ok ()) ↔ status = 0) ∧
    (status ≠ 0 →
      ∃ e : ErrorInternal, (status_to_result env status).1 = some (Except.error e)) := by
  unfold status_to_result ortStatusWrapperIntoResult OrtStatusWrapper.fromRaw
  by_cases h : status = 0
  · simp [h, Ptr.isNull]
  · simp only [Ptr.isNull, h, beq_iff_eq, if_neg, ne_eq, not_false_eq_true, forall_const]
    cases hdec : env.char_p_to_string (env.getErrorMessage status) with
    | ok msg =>
        refine ⟨?_, ErrorInternal.Msg msg, ?_⟩ <;> simp [hdec, h]
    | error err =>
        obtain ⟨ise, rfl⟩ := henv _ _ hdec
        refine ⟨?_, ErrorInternal.IntoStringError ise, ?_⟩ <;> simp [hdec, h]

/-- C2 witness: at a concrete environment, the null handle translates to
success and the handle `5` translates to an error. -/
theorem ok_iff_null_witness :
    ((status_to_result (envOkMsg "m") 0).1 = some (Except.ok ())) ∧
    (∃ e : ErrorInternal,
      (status_to_result (envOkMsg "m") 5).1 = some (Except.error e)) :=
  ⟨(ok_iff_null (envOkMsg "m") 0 (envOkMsg_decode_contract "m")).1.mpr rfl,
   (ok_iff_null (envOkMsg "m") 5 (envOkMsg_decode_contract "m")).2 (by decide)⟩

/-- C3: a non-null handle whose message decodes to `M` translates to an error
whose detail is exactly `ErrorInternal::Msg M`, unmodified. -/
theorem nonnull_msg_exact (env : NativeEnv) (status : Ptr) (M : String)
    (hnn : status ≠ 0)
    (hdec : env.char_p_to_string (env.getErrorMessage status) = Except.ok M) :
    (status_to_result env status).1 = some (Except.error (ErrorInternal.Msg M)) := by
  unfold status_to_result ortStatusWrapperIntoResult OrtStatusWrapper.fromRaw
  simp [Ptr.isNull, hnn, hdec]

/-- C3 witness: a handle carrying the message "invalid input shape" yields a
failure whose detail is exactly that message. -/
theorem nonnull_msg_exact_witness :
    (status_to_result (envOkMsg "invalid input shape") 3).1 =
      some (Except.error (ErrorInternal.Msg "invalid input shape")) :=
  nonnull_msg_exact (envOkMsg "invalid input shape") 3 "invalid input shape"
    (by decide) rfl

/-- C4: a non-null handle whose message fails to decode translates to an error
carrying the decoding failure itself (`ErrorInternal::IntoStringError`), not
the raw message. -/
theorem nonnull_decode_failure (env : NativeEnv) (status : Ptr) (e : IntoStringError)
    (hnn : status ≠ 0)
    (hdec : env.char_p_to_string (env.getErrorMessage status) =
      Except.error (Error.FfiStringConversion (ErrorInternal.IntoStringError e))) :
    (status_to_result env status).1 =
      some (Except.error (ErrorInternal.IntoStringError e)) := by
  unfold status_to_result ortStatusWrapperIntoResult OrtStatusWrapper.fromRaw
  simp [Ptr.isNull, hnn, hdec]

/-- C4 witness: a handle whose message bytes fail UTF-8 decoding yields the
decoding failure itself. -/
theorem nonnull_decode_failure_witness :
    (status_to_result (envBadMsg (IntoStringError.mk [255])) 3).1 =
      some (Except.error (ErrorInternal.IntoStringError (IntoStringError.mk [255]))) :=
  nonnull_decode_failure (envBadMsg (IntoStringError.mk [255])) 3
    (IntoStringError.mk [255]) (by decide) rfl

/-- C5: under the contract that `char_p_to_string` only ever fails with
`Error::FfiStringConversion(ErrorInternal::IntoStringError(..))`, the
`unreachable!()` branch of the conversion is never taken: the translation
always produces an outcome (it never panics). -/
theorem translation_never_panics (env : NativeEnv)
    (henv : DecodeFailsOnlyWithIntoStringError env) (status : Ptr) :
    (status_to_result env status).1 ≠ none := by
  unfold status_to_result ortStatusWrapperIntoResult OrtStatusWrapper.fromRaw
  by_cases h : status = 0
  · simp [h, Ptr.isNull]
  · simp only [Ptr.isNull, h, beq_iff_eq, if_neg]
    cases hdec : env.char_p_to_string (env.getErrorMessage status) with
    | ok msg => simp [hdec]
    | error err =>
        obtain ⟨ise, rfl⟩ := henv _ _ hdec
        simp [hdec]

/-- C5 witness: in a concrete environment satisfying the decode contract, the
translation of the handle `9` produces an outcome. -/
theorem translation_never_panics_witness :
    (status_to_result (envBadMsg (IntoStringError.mk [0])) 9).1 ≠ none :=
  translation_never_panics (envBadMsg (IntoStringError.mk [0]))
    (envBadMsg_decode_contract (IntoStringError.mk [0])) 9

/-- C6: when the stream copies without an I/O failure, the fetch fails with
`CopyError` carrying the declared size and the transferred byte count
unchanged whenever they differ, and succeeds when they are equal. -/
theorem fetch_copy_size_check (expected : Nat) (body : List (Except IoError (List Nat)))
    (hio : (copy_stream body []).1 = none) :
    ((copy_stream body []).2.length ≠ expected →
      (fetch_model { contentLength := some expected, body := body }).1 =
        Except.error (FetchModelError.CopyError expected (copy_stream body []).2.length)) ∧
    ((copy_stream body []).2.length = expected →
      (fetch_model { contentLength := some expected, body := body }).1 =
        Except.ok ()) := by
  rcases hcs : copy_stream body [] with ⟨fst, written⟩
  rw [hcs] at hio
  simp only at hio
  subst hio
  simp only [fetch_model, hcs]
  by_cases hlen : written.length = expected
  · simp [hlen]
  · constructor
    · intro _
      simp [hlen]
    · intro h
      exact absurd h hlen

/-- C6 witness: declared size 2048 against 3 transferred bytes yields
`CopyError {expected := 2048, io := 3}`; declared size 3 against the same
3 bytes yields success. -/
theorem fetch_copy_size_check_witness :
    (fetch_model { contentLength := some 2048, body := [Except.ok [1, 2, 3]] }).1 =
      Except.error (FetchModelError.CopyError 2048 3) ∧
    (fetch_model { contentLength := some 3, body := [Except.ok [1, 2, 3]] }).1 =
      Except.ok () :=
  ⟨(fetch_copy_size_check 2048 [Except.ok [1, 2, 3]] (by decide)).1 (by decide),
   (fetch_copy_size_check 3 [Except.ok [1, 2, 3]] (by decide)).2 (by decide)⟩

/-- C7: when the transfer-size metadata is absent the fetch fails with
`ContentLengthError` and no bytes are written to the destination. -/
theorem fetch_missing_content_length (resp : FetchResponse)
    (h : resp.contentLength = none) :
    fetch_model resp = (Except.error FetchModelError.ContentLengthError, []) := by
  unfold fetch_model
  rw [h]

/-- C7 witness: a response with no transfer-size metadata, even one with a
nonempty body available, fails with `ContentLengthError` and writes nothing. -/
theorem fetch_missing_content_length_witness :
    fetch_model { contentLength := none, body := [Except.ok [1, 2]] } =
      (Except.error FetchModelError.ContentLengthError, []) :=
  fetch_missing_content_length { contentLength := none, body := [Except.ok [1, 2]] } rfl

/-- C8: both variants of the dimensions-mismatch error carry the complete
inference-side and model-side shape-vector lists, and the `InputsCount`
variant additionally carries both input counts — all recoverable unchanged
from the error value. -/
theorem dims_error_carries_full_context
    (c1 c2 : Nat) (l1 : List (List Nat)) (l2 : List (List (Option Nat))) :
    ((NonMatchingDimensionsError.InputsCount c1 c2 l1 l2).inferenceInput = l1 ∧
     (NonMatchingDimensionsError.InputsCount c1 c2 l1 l2).modelInput = l2 ∧
     (NonMatchingDimensionsError.InputsCount c1 c2 l1 l2).inferenceInputCount = some c1 ∧
     (NonMatchingDimensionsError.InputsCount c1 c2 l1 l2).modelInputCount = some c2) ∧
    ((NonMatchingDimensionsError.InputsLength l1 l2).inferenceInput = l1 ∧
     (NonMatchingDimensionsError.InputsLength l1 l2).modelInput = l2) :=
  ⟨⟨rfl, rfl, rfl, rfl⟩, rfl, rfl⟩

set_option maxRecDepth 100000 in
set_option maxHeartbeats 4000000 in
/-- C9: `model_url` is total on the twelve-variant enum, every URL is
non-empty and pinned to the single onnx/models commit
`5faef4c33eba0395177850e1e31c4a6a9e634c82`, and distinct variants map to
distinct URLs. -/
theorem model_url_total_distinct_pinned :
    ObjectDetectionImageSegmentation.allVariants.length = 12 ∧
    ∀ m m' : ObjectDetectionImageSegmentation,
      m ∈ ObjectDetectionImageSegmentation.allVariants ∧
      model_url m ≠ "" ∧
      pinnedCommitPrefix.data.IsPrefix (model_url m).data ∧
      (model_url m = model_url m' → m = m') := by
  decide

/-- C9 witness: two concrete variants have non-empty, distinct, commit-pinned
URLs. -/
theorem model_url_total_distinct_pinned_witness :
    model_url ObjectDetectionImageSegmentation.Ssd ≠ "" ∧
    pinnedCommitPrefix.data.IsPrefix
      (model_url ObjectDetectionImageSegmentation.YoloV4).data ∧
    (model_url ObjectDetectionImageSegmentation.Duc =
        model_url ObjectDetectionImageSegmentation.Duc →
      ObjectDetectionImageSegmentation.Duc = ObjectDetectionImageSegmentation.Duc) :=
  ⟨(model_url_total_distinct_pinned.2 ObjectDetectionImageSegmentation.Ssd
      ObjectDetectionImageSegmentation.Ssd).2.1,
   (model_url_total_distinct_pinned.2 ObjectDetectionImageSegmentation.YoloV4
      ObjectDetectionImageSegmentation.YoloV4).2.2.1,
   (model_url_total_distinct_pinned.2 ObjectDetectionImageSegmentation.Duc
      ObjectDetectionImageSegmentation.Duc).2.2.2⟩

/-- C10: `assert_non_null_pointer` succeeds exactly on non-null pointers and
otherwise reports `PointerShouldNotBeNull` with the given name; dually,
`assert_null_pointer` succeeds exactly on the null pointer and otherwise
reports `PointerShouldBeNull` with the given name. -/
theorem assert_pointer_correct (ptr : Ptr) (name : String) :
    (assert_non_null_pointer ptr name = Except.ok () ↔ ptr ≠ 0) ∧
    (ptr = 0 →
      assert_non_null_pointer ptr name =
        Except.error (Error.PointerShouldNotBeNull name)) ∧
    (assert_null_pointer ptr name = Except.ok () ↔ ptr = 0) ∧
    (ptr ≠ 0 →
      assert_null_pointer ptr name =
        Except.error (Error.PointerShouldBeNull name)) := by
  unfold assert_non_null_pointer assert_null_pointer
  by_cases h : ptr = 0 <;> simp [h, Ptr.isNull]

/-- C10 witness: the four behaviors at the concrete pointers 0 and 7. -/
theorem assert_pointer_correct_witness :
    assert_non_null_pointer 7 "x" = Except.ok () ∧
    assert_non_null_pointer 0 "x" = Except.error (Error.PointerShouldNotBeNull "x") ∧
    assert_null_pointer 0 "x" = Except.ok () ∧
    assert_null_pointer 7 "x" = Except.error (Error.PointerShouldBeNull "x") :=
  ⟨(assert_pointer_correct 7 "x").1.mpr (by decide),
   (assert_pointer_correct 0 "x").2.1 rfl,
   (assert_pointer_correct 0 "x").2.2.1.mpr rfl,
   (assert_pointer_correct 7 "x").2.2.2 (by decide)⟩
